import Mathlib

/-!
Verification of the data-cleaning and derivation pipeline of the
mobile-data dashboard (`src/app.py`).

Modelling conventions:
* A raw spreadsheet cell is `Option String`: `none` models a pandas
  NaN / absent value (`pd.isna`), `some s` models the cell's text after
  Python's `str(x)` conversion.
* Finite Python real arithmetic is modelled exactly by `Rat`; every
  numeric fact proved here is exact at the inputs concerned, so float
  rounding plays no role. `float()`'s special values nan and inf are the
  extra constructors of the `PyFloat` type.
* Character-level helpers model the Python string primitives used by the
  source (`strip`, `lower`, `replace`, substring `in`, `isdigit`) over
  ASCII plus representative Unicode digit classes: decimal digits of the
  Arabic-Indic and Devanagari ranges, and the superscript/subscript
  digits, which `str.isdigit` accepts but `int()` rejects.
* Fallible calls are modelled with `Option`: `none` from `to_intRun` or
  the float parsers is a raised/caught exception, never a value.
-/

namespace Dashboard

/-- Python's default `str.strip` character class (ASCII whitespace). -/
def isSpaceChar (c : Char) : Bool :=
  c == ' ' || c == '\t' || c == '\n' || c == '\r' || c == '\x0b' || c == '\x0c'

/-- Python `str.strip()`: drop leading and trailing whitespace. -/
def pyStrip (l : List Char) : List Char :=
  ((l.dropWhile isSpaceChar).reverse.dropWhile isSpaceChar).reverse

/-- Python `str.replace(c, "")`: remove every occurrence of the character `c`. -/
def removeChar (c : Char) (l : List Char) : List Char :=
  l.filter (fun d => d ≠ c)

/-- Python `str.lower()` over ASCII. -/
def toLowerL (l : List Char) : List Char :=
  l.map Char.toLower

/-- Python's substring test `pat in s`. -/
def containsSub (pat : List Char) : List Char → Bool
  | [] => pat.isEmpty
  | c :: t => pat.isPrefixOf (c :: t) || containsSub pat t

/-- The integer denoted by a list of decimal digits read left to right
(`int(digits)` in the source); `0` for the empty list. -/
def digitsToNat (l : List Char) : Nat :=
  l.foldl (fun n c => 10 * n + (c.toNat - '0'.toNat)) 0

/-- The marker words `to_int` treats as "data not available"
(`src/app.py` line 89). -/
def markerWordsInt : List String :=
  ["data", "not", "available", "na", "n/a"]

/-- A cell is unusable when it is NaN/absent or blank after trimming. -/
def isBlankCell : Option String → Bool
  | none => true
  | some s => (pyStrip s.data).isEmpty

/-- The comma- and space-stripped trimmed text `to_int` works on:
`str(x).strip().replace(",", "").replace(" ", "")`. -/
def numText (s : String) : List Char :=
  removeChar ' ' (removeChar ',' (pyStrip s.data))

/-- The source's `to_int` (`src/app.py` lines 84-92) restricted to the
always-succeeding case: NaN or blank-after-trim is 0; commas and spaces
are removed; if the lower-cased remainder contains a marker word the
result is 0; otherwise the digits of the remainder are concatenated in
order (0 when there are none). Here the digit filter keeps ASCII decimal
digits only, on which Python's `int(digits)` cannot fail; the faithful
model of the full behaviour over Python's wider `str.isdigit` class,
including the `ValueError` that `int` raises on digit-like non-decimal
characters, is `to_intRun` below, and the two agree on cells whose
digit-like characters are all ASCII (`to_intRun_eq_on_ascii`). -/
def to_int (x : Option String) : Nat :=
  match x with
  | none => 0
  | some str =>
    if (pyStrip str.data).isEmpty then 0
    else if markerWordsInt.any (fun w => containsSub w.data (toLowerL (numText str))) then 0
    else digitsToNat ((numText str).filter Char.isDigit)

/-- Python's per-character decimal-digit value (Unicode category Nd), the
class `int()` accepts. Modelled ranges: the ASCII digits plus the
Arabic-Indic (U+0660-0669) and Devanagari (U+0966-096F) decimal digits as
representatives of the non-ASCII part of Nd. -/
def pyDigitVal? (c : Char) : Option Nat :=
  if c.isDigit then some (c.toNat - 48)
  else if 0x660 ≤ c.toNat ∧ c.toNat ≤ 0x669 then some (c.toNat - 0x660)
  else if 0x966 ≤ c.toNat ∧ c.toNat ≤ 0x96F then some (c.toNat - 0x966)
  else none

/-- Characters with Unicode property Numeric_Type=Digit that are NOT
decimal digits: Python's `str.isdigit` accepts them but `int()` raises
`ValueError` on them. Modelled: the superscript digits ¹ ² ³ (U+00B9,
U+00B2, U+00B3), ⁰ and ⁴-⁹ (U+2070, U+2074-2079), and the subscript
digits ₀-₉ (U+2080-2089). -/
def pySuperDigit (c : Char) : Bool :=
  c == '¹' || c == '²' || c == '³' || c == '⁰'
  || (decide (0x2074 ≤ c.toNat) && decide (c.toNat ≤ 0x2079))
  || (decide (0x2080 ≤ c.toNat) && decide (c.toNat ≤ 0x2089))

/-- Python's `str.isdigit` per character: true on decimal digits and on
digit-like non-decimal characters (Numeric_Type Decimal or Digit), over
the modelled alphabet. -/
def pyIsDigit (c : Char) : Bool :=
  (pyDigitVal? c).isSome || pySuperDigit c

/-- The base-10 value of a run of decimal digits, combining each
character's decimal-digit value (digit-value 0 for characters outside the
decimal class, which `pyIntDigits` rules out before using this). -/
def decimalValue (l : List Char) : Nat :=
  l.foldl (fun n c => 10 * n + (pyDigitVal? c).getD 0) 0

/-- Python's `int(digits)` on a non-empty string of `isdigit` characters:
succeeds with the base-10 value when every character is a decimal digit,
raises `ValueError` (modelled as `none`) otherwise — e.g. `int("²")`
raises even though `"²".isdigit()` is true. -/
def pyIntDigits (l : List Char) : Option Nat :=
  if l.all (fun c => (pyDigitVal? c).isSome) then some (decimalValue l) else none

/-- The faithful run of the source's `to_int` (`src/app.py` lines 84-92):
`some n` is a normal return, `none` is the `ValueError` raised by
`int(digits)` when the kept `isdigit` characters include a digit-like
non-decimal character. The error escapes `to_int` and the `.apply` at
line 103 — nothing in `load_and_clean` catches it. -/
def to_intRun (x : Option String) : Option Nat :=
  match x with
  | none => some 0
  | some str =>
    if (pyStrip str.data).isEmpty then some 0
    else if markerWordsInt.any (fun w => containsSub w.data (toLowerL (numText str))) then some 0
    else if ((numText str).filter pyIsDigit).isEmpty then some 0
    else pyIntDigits ((numText str).filter pyIsDigit)

/-- Digit run of an exponent, applied to an already-parsed mantissa:
the exponent must be a non-empty digit run consuming the rest of the
text. -/
def applyExpDigits (m : Rat) (pos : Bool) (t : List Char) : Option Rat :=
  if (t.takeWhile Char.isDigit).isEmpty || !(t.dropWhile Char.isDigit).isEmpty then none
  else some (if pos then m * 10 ^ digitsToNat (t.takeWhile Char.isDigit)
             else m / 10 ^ digitsToNat (t.takeWhile Char.isDigit))

/-- Exponent part of a Python float literal: optional sign then digits,
scaling an already-parsed mantissa. -/
def applyExp (m : Rat) (l : List Char) : Option Rat :=
  match l with
  | '+' :: u => applyExpDigits m true u
  | '-' :: u => applyExpDigits m false u
  | _ => applyExpDigits m true l

/-- The rational denoted by integer-part and fraction-part digit runs. -/
def mantissa (ip fp : List Char) : Rat :=
  (digitsToNat ip : Rat) + (digitsToNat fp : Rat) / (10 : Rat) ^ fp.length

/-- Assemble a float from its digit runs and the remaining text, which
must be empty or an exponent; at least one digit run must be non-empty. -/
def mkFloat (ip fp r2 : List Char) : Option Rat :=
  if ip.isEmpty && fp.isEmpty then none
  else
    match r2 with
    | [] => some (mantissa ip fp)
    | 'e' :: t => applyExp (mantissa ip fp) t
    | 'E' :: t => applyExp (mantissa ip fp) t
    | _ => none

/-- Unsigned Python float literal: `digits`, `digits.digits`, `.digits`,
`digits.`, optionally followed by an exponent. -/
def pyFloatUnsigned (l : List Char) : Option Rat :=
  match l.dropWhile Char.isDigit with
  | '.' :: t => mkFloat (l.takeWhile Char.isDigit) (t.takeWhile Char.isDigit)
      (t.dropWhile Char.isDigit)
  | r1 => mkFloat (l.takeWhile Char.isDigit) [] r1

/-- The finite-literal fragment of Python's builtin `float(str)`:
optional sign, digits, optional fraction, optional exponent, denoting an
exact rational. The case-insensitive special spellings
`inf`/`infinity`/`nan` are handled by `pyFloatFull` below, which wraps
this fragment. Non-ASCII decimal digits (also accepted by `float()`) and
underscore digit separators are not modelled: absent a minus sign they
can only denote non-negative finite values, so they cannot affect the
sign or finiteness facts proved here. -/
def pyFloat (l : List Char) : Option Rat :=
  match l with
  | '+' :: t => pyFloatUnsigned t
  | '-' :: t => (pyFloatUnsigned t).map (fun q => -q)
  | _ => pyFloatUnsigned l

/-- The source's `to_float` (`src/app.py` lines 94-100) restricted to
finite results: NaN or blank-after-trim is 0.0; otherwise commas are
removed from the trimmed text and a float parse is attempted, any failure
yielding 0.0. The faithful model including `float()`'s special values
nan/inf is `to_floatRun` below; the two agree whenever no special
spelling can match (`parsePopulation_nonneg_finite`). -/
def to_float (x : Option String) : Rat :=
  match x with
  | none => 0
  | some str =>
    if (pyStrip str.data).isEmpty then 0
    else
      match pyFloat (removeChar ',' (pyStrip str.data)) with
      | some q => q
      | none => 0

/-- The marker phrases `clean` treats as "data not available"
(`src/app.py` line 113). Note this set differs from `markerWordsInt`. -/
def markerWordsClean : List String :=
  ["data not available", "not available", "na", "n/a"]

/-- The text `clean` matches against: `"" if pd.isna(raw) else
str(raw).lower().strip()`. -/
def cleanText : Option String → List Char
  | none => []
  | some s => pyStrip (toLowerL s.data)

/-- The source's `clean` (`src/app.py` lines 108-119): a positive count wins; then the
unavailable-marker phrases; then "pending"; then the upload words
(including the known typo "uploded"); default "No Data". Status values
are the source's literal strings. -/
def clean (raw : Option String) (count : Nat) : String :=
  if count > 0 then "Uploaded"
  else if markerWordsClean.any (fun w => containsSub w.data (cleanText raw)) then "No Data"
  else if containsSub "pending".data (cleanText raw) then "Pending upload"
  else if containsSub "uploaded".data (cleanText raw) || containsSub "upload".data (cleanText raw)
       || containsSub "uploded".data (cleanText raw) then "Uploaded"
  else "No Data"

/-- The percentage rule `(count / population * 100) if population > 0 else 0`
(`src/app.py` lines 126-141, one inline lambda per metric). -/
def derivePercent (count : Nat) (pop : Rat) : Rat :=
  if 0 < pop then (count : Rat) / pop * 100 else 0

/-- One raw spreadsheet row after the column-defaulting pass
(`src/app.py` lines 75-78): every consumed column is present, each cell
an `Option String` (`none` = NaN). The Eroll columns are aliases of the
Voter columns (lines 81-82). -/
structure RawRow where
  stateName : Option String
  population : Option String
  voterCount : Option String
  voterStatus : Option String
  adharCount : Option String
  adharStatus : Option String
  cadreCount : Option String
  cadreStatus : Option String
  overallMobileCount : Option String
  deriving Repr, DecidableEq

/-- The derived per-row columns (`src/app.py` lines 102-143). Statuses are
the literal strings produced by `clean`; note the source derives no status
column for the Overall Mobile metric. -/
structure CanonicalRow where
  state : String
  population : Rat
  adharCount : Nat
  cadreCount : Nat
  erollCount : Nat
  overallMobileCount : Nat
  adharStatus : String
  cadreStatus : String
  erollStatus : String
  adharPercent : Rat
  cadrePercent : Rat
  erollPercent : Rat
  overallMobilePercent : Rat
  deriving Repr, DecidableEq

/-- The state column `df["State Name"].astype(str).str.strip()` (`src/app.py` line 143):
pandas `astype(str)` renders NaN as the text "nan". -/
def cleanState : Option String → String
  | none => "nan"
  | some s => ⟨pyStrip s.data⟩

/-- The per-row pipeline (`src/app.py` lines 102-143): parse the numeric
cells, derive one status per tracked metric from its status cell and
parsed count, and derive the percentages against the parsed population. -/
def cleanRow (r : RawRow) : CanonicalRow :=
  let pop := to_float r.population
  let adhar := to_int r.adharCount
  let cadre := to_int r.cadreCount
  let eroll := to_int r.voterCount
  let mobile := to_int r.overallMobileCount
  { state := cleanState r.stateName
    population := pop
    adharCount := adhar
    cadreCount := cadre
    erollCount := eroll
    overallMobileCount := mobile
    adharStatus := clean r.adharStatus adhar
    cadreStatus := clean r.cadreStatus cadre
    erollStatus := clean r.voterStatus eroll
    adharPercent := derivePercent adhar pop
    cadrePercent := derivePercent cadre pop
    erollPercent := derivePercent eroll pop
    overallMobilePercent := derivePercent mobile pop }

/-- Row-wise, order-preserving application of the pipeline to the whole
table. -/
def runPipeline (rows : List RawRow) : List CanonicalRow :=
  rows.map cleanRow

/-- One metric's summary-card numbers (`src/app.py` lines 199-209). -/
structure Tally where
  uploaded : Nat
  pending : Nat
  noData : Nat
  deriving Repr, DecidableEq

/-- The tally step `(df[col] == v).sum()`: how many rows carry status value `v`. -/
def countStatus (rows : List CanonicalRow) (f : CanonicalRow → String)
    (v : String) : Nat :=
  rows.countP (fun r => f r == v)

/-- The three summary-card counts for one metric's status column
(`src/app.py` lines 199-209). -/
def tally (rows : List CanonicalRow) (f : CanonicalRow → String) : Tally :=
  { uploaded := countStatus rows f "Uploaded"
    pending := countStatus rows f "Pending upload"
    noData := countStatus rows f "No Data" }

/-- The state filter (`src/app.py` lines 191-193): "All" keeps every row,
otherwise keep the rows whose `State` equals the selection. -/
def dfFiltered (df : List CanonicalRow) (sel : String) : List CanonicalRow :=
  if sel = "All" then df else df.filter (fun r => r.state == sel)

/-- Stable insertion into a list sorted ascending by state. -/
def insertByState (r : CanonicalRow) : List CanonicalRow → List CanonicalRow
  | [] => [r]
  | x :: xs => if r.state ≤ x.state then r :: x :: xs else x :: insertByState r xs

/-- The detail table's `sort_values("State")` (`src/app.py` line 459). -/
def sortByState (rows : List CanonicalRow) : List CanonicalRow :=
  rows.foldr insertByState []

/-- Stable insertion into a list sorted descending by Aadhaar count. -/
def insertByAdharDesc (r : CanonicalRow) : List CanonicalRow → List CanonicalRow
  | [] => [r]
  | x :: xs => if x.adharCount ≤ r.adharCount then r :: x :: xs
               else x :: insertByAdharDesc r xs

/-- The chart ordering `sort_values("Adhar_Count_Num", ascending=False)` (`src/app.py`
line 302), the chart's row order. -/
def sortByAdharDesc (rows : List CanonicalRow) : List CanonicalRow :=
  rows.foldr insertByAdharDesc []

/-- One exported record: the column selection of `display_df`
(`src/app.py` lines 512-515). There is no Overall Mobile status field. -/
structure ExportRecord where
  state : String
  population : Rat
  aadhaarCount : Nat
  aadhaarPercent : Rat
  aadhaarStatus : String
  cadreCount : Nat
  cadrePercent : Rat
  cadreStatus : String
  erollCount : Nat
  erollPercent : Rat
  erollStatus : String
  overallMobileCount : Nat
  overallMobilePercent : Rat
  deriving Repr, DecidableEq

/-- Project one canonical row to the export column selection
(`src/app.py` lines 512-515). -/
def exportRecord (r : CanonicalRow) : ExportRecord :=
  { state := r.state
    population := r.population
    aadhaarCount := r.adharCount
    aadhaarPercent := r.adharPercent
    aadhaarStatus := r.adharStatus
    cadreCount := r.cadreCount
    cadrePercent := r.cadrePercent
    cadreStatus := r.cadreStatus
    erollCount := r.erollCount
    erollPercent := r.erollPercent
    erollStatus := r.erollStatus
    overallMobileCount := r.overallMobileCount
    overallMobilePercent := r.overallMobilePercent }

/-- The CSV header names of `display_df` (`src/app.py` lines 516-519). -/
def exportColumns : List String :=
  ["State", "Population", "Aadhaar Count", "Aadhaar %", "Aadhaar Status",
   "Cadre Count", "Cadre %", "Cadre Status",
   "Eroll Count", "Eroll %", "Eroll Status",
   "Overall Mobile Count", "Overall Mobile %"]

/-- Everything one render pass derives from the cleaned table and the
sidebar selection (`src/app.py` lines 184-526). -/
structure RenderOutput where
  aadhaarTally : Tally
  cadreTally : Tally
  erollTally : Tally
  barRows : List CanonicalRow
  tableRows : List CanonicalRow
  exportRows : List ExportRecord
  deriving Repr, DecidableEq

/-- The render pass: the summary tallies (lines 199-209) and the chart's
row order (line 302) read the full table `df`; the detail table (line 459)
and the CSV export (line 512) read the filtered `df_filtered`. -/
def render (df : List CanonicalRow) (sel : String) : RenderOutput :=
  let filtered := dfFiltered df sel
  { aadhaarTally := tally df (fun r => r.adharStatus)
    cadreTally := tally df (fun r => r.cadreStatus)
    erollTally := tally df (fun r => r.erollStatus)
    barRows := sortByAdharDesc df
    tableRows := sortByState filtered
    exportRows := filtered.map exportRecord }

/-! ### Helper lemmas -/

lemma isDigit_pyDigitVal {c : Char} (h : c.isDigit = true) :
    (pyDigitVal? c).isSome = true := by
  unfold pyDigitVal?
  rw [if_pos h]
  rfl

lemma decimalValue_eq_digitsToNat {l : List Char}
    (h : l.all Char.isDigit = true) : decimalValue l = digitsToNat l := by
  suffices aux : ∀ (t : List Char), t.all Char.isDigit = true → ∀ n : Nat,
      t.foldl (fun n c => 10 * n + (pyDigitVal? c).getD 0) n
        = t.foldl (fun n c => 10 * n + (c.toNat - '0'.toNat)) n by
    exact aux l h 0
  intro t
  induction t with
  | nil => intro _ n; rfl
  | cons a u ih =>
    intro ht n
    rw [List.all_cons, Bool.and_eq_true] at ht
    simp only [List.foldl_cons]
    rw [show (pyDigitVal? a).getD 0 = a.toNat - '0'.toNat by
      unfold pyDigitVal?; rw [if_pos ht.1]; rfl]
    exact ih ht.2 _

lemma to_intRun_eq_on_ascii (s : String)
    (h : ((numText s).filter pyIsDigit).all Char.isDigit = true) :
    to_intRun (some s) = some (to_int (some s)) := by
  have hpt : ∀ c ∈ numText s, pyIsDigit c = Char.isDigit c := by
    intro c hc
    cases hv : Char.isDigit c with
    | true =>
      unfold pyIsDigit
      rw [isDigit_pyDigitVal hv]
      rfl
    | false =>
      cases hq : pyIsDigit c with
      | false => rfl
      | true =>
        exfalso
        have hmem : c ∈ (numText s).filter pyIsDigit :=
          List.mem_filter.mpr ⟨hc, hq⟩
        have := List.all_eq_true.mp h c hmem
        rw [hv] at this
        exact Bool.false_ne_true this
  have hfilter : (numText s).filter pyIsDigit = (numText s).filter Char.isDigit :=
    List.filter_congr hpt
  by_cases hb : (pyStrip s.data).isEmpty = true
  · simp [to_intRun, to_int, hb]
  · by_cases hm : markerWordsInt.any
        (fun w => containsSub w.data (toLowerL (numText s))) = true
    · simp [to_intRun, to_int, hb, hm]
    · by_cases he : ((numText s).filter pyIsDigit).isEmpty = true
      · have hnil : (numText s).filter pyIsDigit = [] := by
          simpa [List.isEmpty_iff] using he
        rw [hfilter] at hnil
        simp [to_intRun, to_int, hb, hm, he, hfilter, hnil, digitsToNat]
      · have hall : ((numText s).filter pyIsDigit).all
            (fun c => (pyDigitVal? c).isSome) = true := by
          rw [List.all_eq_true] at h ⊢
          intro c hc
          exact isDigit_pyDigitVal (h c hc)
        have e1 : to_intRun (some s)
            = (if (pyStrip s.data).isEmpty then some 0
               else if markerWordsInt.any
                   (fun w => containsSub w.data (toLowerL (numText s))) then some 0
               else if ((numText s).filter pyIsDigit).isEmpty then some 0
               else pyIntDigits ((numText s).filter pyIsDigit)) := rfl
        have e2 : to_int (some s)
            = (if (pyStrip s.data).isEmpty then 0
               else if markerWordsInt.any
                   (fun w => containsSub w.data (toLowerL (numText s))) then 0
               else digitsToNat ((numText s).filter Char.isDigit)) := rfl
        rw [e1, e2, if_neg hb, if_neg hb, if_neg hm, if_neg hm, if_neg he]
        have e3 : pyIntDigits ((numText s).filter pyIsDigit)
            = some (decimalValue ((numText s).filter pyIsDigit)) := by
          unfold pyIntDigits
          rw [if_pos hall]
        rw [e3, decimalValue_eq_digitsToNat h, hfilter]

lemma clean_cases (raw : Option String) (count : Nat) :
    clean raw count = "Uploaded" ∨ clean raw count = "Pending upload" ∨
      clean raw count = "No Data" := by
  unfold clean
  split
  · exact Or.inl rfl
  · split
    · exact Or.inr (Or.inr rfl)
    · split
      · exact Or.inr (Or.inl rfl)
      · split
        · exact Or.inl rfl
        · exact Or.inr (Or.inr rfl)

lemma countP_status_partition (rows : List CanonicalRow) (f : CanonicalRow → String)
    (h : ∀ r ∈ rows, f r = "Uploaded" ∨ f r = "Pending upload" ∨ f r = "No Data") :
    rows.countP (fun r => f r == "Uploaded")
      + rows.countP (fun r => f r == "Pending upload")
      + rows.countP (fun r => f r == "No Data") = rows.length := by
  induction rows with
  | nil => rfl
  | cons a t ih =>
    have ht : ∀ r ∈ t, f r = "Uploaded" ∨ f r = "Pending upload" ∨ f r = "No Data" :=
      fun r hr => h r (List.mem_cons_of_mem a hr)
    have iht := ih ht
    simp only [List.countP_cons, List.length_cons]
    rcases h a (List.mem_cons_self a t) with ha | ha | ha <;>
      rw [ha] <;> simp <;> omega

lemma tally_partition (rows : List CanonicalRow) (f : CanonicalRow → String)
    (h : ∀ r ∈ rows, f r = "Uploaded" ∨ f r = "Pending upload" ∨ f r = "No Data") :
    (tally rows f).uploaded + (tally rows f).pending + (tally rows f).noData
      = rows.length := by
  unfold tally countStatus
  exact countP_status_partition rows f h

/-! ### Claim theorems -/

/-- A concrete raw row used by witnesses: positive Aadhaar/Cadre/Voter
counts with contradictory status text. -/
def sampleRow : RawRow :=
  { stateName := some " Goa "
    population := some "1,500,000"
    voterCount := some "7"
    voterStatus := some "No Data"
    adharCount := some "12,345"
    adharStatus := some "data not available"
    cadreCount := some "3"
    cadreStatus := none
    overallMobileCount := some "" }

/-- C1: whenever the parsed count is positive, `clean` returns "Uploaded"
regardless of the raw status text, and hence every canonical row whose
metric count is positive carries status "Uploaded" for that metric. -/
theorem count_overrides_text (raw : Option String) (count : Nat) (r : RawRow) :
    (0 < count → clean raw count = "Uploaded")
    ∧ (0 < (cleanRow r).adharCount → (cleanRow r).adharStatus = "Uploaded")
    ∧ (0 < (cleanRow r).cadreCount → (cleanRow r).cadreStatus = "Uploaded")
    ∧ (0 < (cleanRow r).erollCount → (cleanRow r).erollStatus = "Uploaded") := by
  have base : ∀ (a : Option String) (n : Nat), 0 < n → clean a n = "Uploaded" := by
    intro a n hn
    unfold clean
    rw [if_pos hn]
  refine ⟨base raw count, ?_, ?_, ?_⟩ <;>
    · intro h
      exact base _ _ h

/-- Witness for `count_overrides_text`: contradictory text "No Data" with
count 5, and `sampleRow`, whose three tracked counts are positive. -/
theorem count_overrides_text_witness :
    clean (some "No Data") 5 = "Uploaded"
    ∧ (cleanRow sampleRow).adharStatus = "Uploaded"
    ∧ (cleanRow sampleRow).cadreStatus = "Uploaded"
    ∧ (cleanRow sampleRow).erollStatus = "Uploaded" := by
  obtain ⟨h1, h2, h3, h4⟩ := count_overrides_text (some "No Data") 5 sampleRow
  exact ⟨h1 (by decide), h2 (by decide), h3 (by decide), h4 (by decide)⟩

/-- The marker test of `to_int`, written from the spec's description of
`parseCount`: after separators are stripped, the lower-cased text contains
one of the marker words. -/
def hasMarkerInt (s : String) : Bool :=
  markerWordsInt.any (fun w => containsSub w.data (toLowerL (numText s)))

/-- C2: the claimed totality fails in the source — the cell "²"
(superscript two, U+00B2) is kept by the digit filter since
`"²".isdigit()` is true, but it is not a decimal digit, so `int("²")`
raises `ValueError`, which escapes `to_int` and the `.apply` at
`src/app.py` line 103 with no handler; the faithful run returns no value
(`none`) instead of a defined default. Genuinely blank or absent cells do
degrade to the defaults. -/
theorem to_int_raises_on_superscript_digit :
    pyIsDigit '²' = true
    ∧ pyDigitVal? '²' = none
    ∧ isBlankCell (some "²") = false
    ∧ hasMarkerInt "²" = false
    ∧ to_intRun (some "²") = none
    ∧ to_intRun (some "   ") = some 0
    ∧ to_intRun none = some 0
    ∧ clean (some "   ") 0 = "No Data" := by
  decide

/-- C3 counterexample: the cell "²" is not blank and contains no marker
word; its single character is kept by Python's digit filter yet is not a
decimal digit, so the claim's description predicts 0 (no decimal digits
to concatenate) while the source raises `ValueError` and yields no value
at all. -/
theorem parseCount_unicode_counterexample :
    pyIsDigit '²' = true
    ∧ pyDigitVal? '²' = none
    ∧ isBlankCell (some "²") = false
    ∧ hasMarkerInt "²" = false
    ∧ to_intRun (some "²") = none
    ∧ (to_intRun (some "²") == some 0) = false := by
  decide

/-- C3 amended: the run of `to_int` returns 0 on absent/blank cells; 0
whenever a marker word occurs in the separator-stripped lower-cased text,
regardless of digits ("123 - data not available" gives 0); and otherwise,
provided every kept digit-like character is a Unicode decimal digit, the
integer formed by combining those digits' values in order while
discarding interspersed non-digits ("1,234 (approx)" gives 1234, and the
Arabic-Indic "٣٤" gives 34), 0 when none occur; a digit-like non-decimal
character such as "²" instead makes `int()` raise. -/
theorem parseCount_spec_amended (s : String) :
    to_intRun none = some 0
    ∧ (isBlankCell (some s) = true → to_intRun (some s) = some 0)
    ∧ (hasMarkerInt s = true → to_intRun (some s) = some 0)
    ∧ (isBlankCell (some s) = false → hasMarkerInt s = false →
        ((numText s).filter pyIsDigit).all (fun c => (pyDigitVal? c).isSome) = true →
        to_intRun (some s) = some (decimalValue ((numText s).filter pyIsDigit)))
    ∧ decimalValue ([] : List Char) = 0
    ∧ to_intRun (some "123 - data not available") = some 0
    ∧ to_intRun (some "1,234 (approx)") = some 1234
    ∧ to_intRun (some "٣٤") = some 34 := by
  refine ⟨rfl, ?_, ?_, ?_, rfl, by decide, by decide, by decide⟩
  · intro h
    have hb : (pyStrip s.data).isEmpty = true := h
    simp [to_intRun, hb]
  · intro h
    have hm : markerWordsInt.any
        (fun w => containsSub w.data (toLowerL (numText s))) = true := h
    simp [to_intRun, hm]
  · intro hb hm hall
    have hb2 : (pyStrip s.data).isEmpty = false := hb
    have hm2 : markerWordsInt.any
        (fun w => containsSub w.data (toLowerL (numText s))) = false := hm
    by_cases he : ((numText s).filter pyIsDigit).isEmpty = true
    · have hnil : (numText s).filter pyIsDigit = [] := by
        simpa [List.isEmpty_iff] using he
      simp [to_intRun, hb2, hm2, he, hnil, decimalValue]
    · simp [to_intRun, hb2, hm2, he, pyIntDigits, hall]

/-- Witness for `parseCount_spec_amended`: the marker branch on
"123 - data not available" and the digit branch on "1,234 (approx)". -/
theorem parseCount_spec_amended_witness :
    to_intRun (some "123 - data not available") = some 0
    ∧ to_intRun (some "1,234 (approx)")
        = some (decimalValue ((numText "1,234 (approx)").filter pyIsDigit)) := by
  exact ⟨(parseCount_spec_amended "123 - data not available").2.2.1 (by decide),
    (parseCount_spec_amended "1,234 (approx)").2.2.2.1
      (by decide) (by decide) (by decide)⟩

/-- C4 counterexample: "data upload" contains the marker word "data" of
`parseCount`'s set, yet with count 0 `clean` returns "Uploaded", not
"No Data" — `clean`'s marker set is not the same set `to_int` uses. -/
theorem deriveStatus_marker_counterexample :
    containsSub "data".data (cleanText (some "data upload")) = true
    ∧ clean (some "data upload") 0 = "Uploaded"
    ∧ (clean (some "data upload") 0 == "No Data") = false := by
  decide

/-- C4 amended: with count 0, `clean` returns "No Data" when the
lower-cased trimmed text contains one of ITS marker phrases
{"data not available", "not available", "na", "n/a"} (a narrower set than
`to_int`'s), and also for empty or absent text. -/
theorem deriveStatus_noData (s : String)
    (h : markerWordsClean.any
        (fun w => containsSub w.data (cleanText (some s))) = true) :
    clean (some s) 0 = "No Data"
    ∧ clean (some "") 0 = "No Data"
    ∧ clean none 0 = "No Data" := by
  refine ⟨?_, by decide, by decide⟩
  simp [clean, h]

/-- Witness for `deriveStatus_noData`: the text "Data Not Available". -/
theorem deriveStatus_noData_witness :
    clean (some "Data Not Available") 0 = "No Data"
    ∧ clean (some "") 0 = "No Data"
    ∧ clean none 0 = "No Data" := by
  exact deriveStatus_noData "Data Not Available" (by decide)

/-- C5: with count 0 and no marker-phrase match, text containing "pending"
yields "Pending upload" (this check precedes the upload-word check), and
text containing an upload word — "uploaded", "upload" or the known typo
"uploded" — but not "pending" yields "Uploaded"; in particular
`clean "Pending upload" 0 = "Pending upload"` and
`clean "uploded" 0 = "Uploaded"`. -/
theorem deriveStatus_pending_precedes_upload (s u : String)
    (hm : markerWordsClean.any
        (fun w => containsSub w.data (cleanText (some s))) = false)
    (hp : containsSub "pending".data (cleanText (some s)) = true)
    (hum : markerWordsClean.any
        (fun w => containsSub w.data (cleanText (some u))) = false)
    (hup : containsSub "pending".data (cleanText (some u)) = false)
    (huw : (containsSub "uploaded".data (cleanText (some u))
        || containsSub "upload".data (cleanText (some u))
        || containsSub "uploded".data (cleanText (some u))) = true) :
    clean (some s) 0 = "Pending upload"
    ∧ clean (some u) 0 = "Uploaded"
    ∧ clean (some "Pending upload") 0 = "Pending upload"
    ∧ clean (some "uploded") 0 = "Uploaded" := by
  refine ⟨?_, ?_, by decide, by decide⟩
  · simp [clean, hm, hp]
  · simp [clean, hum, hup, huw]

/-- Witness for `deriveStatus_pending_precedes_upload`: the texts
"Pending upload" and "uploded". -/
theorem deriveStatus_pending_precedes_upload_witness :
    clean (some "Pending upload") 0 = "Pending upload"
    ∧ clean (some "uploded") 0 = "Uploaded"
    ∧ clean (some "Pending upload") 0 = "Pending upload"
    ∧ clean (some "uploded") 0 = "Uploaded" := by
  exact deriveStatus_pending_precedes_upload "Pending upload" "uploded"
    (by decide) (by decide) (by decide) (by decide) (by decide)

/-- C6: the percentage is `count / population * 100` when the population
is positive and 0 otherwise, so the division is guarded: at population 0
the result is 0 for every count, and `derivePercent 50 200 = 25`. -/
theorem derivePercent_guarded (count : Nat) (pop : Rat) (h : 0 < pop) :
    derivePercent count pop = (count : Rat) / pop * 100
    ∧ derivePercent count 0 = 0
    ∧ derivePercent 50 200 = 25 := by
  refine ⟨by simp [derivePercent, h], by simp [derivePercent], ?_⟩
  norm_num [derivePercent]

/-- Witness for `derivePercent_guarded`: count 50 and population 200. -/
theorem derivePercent_guarded_witness :
    (0 : Rat) < 200
    ∧ derivePercent 50 200 = (50 : Rat) / 200 * 100
    ∧ derivePercent 50 0 = 0
    ∧ derivePercent 50 200 = 25 :=
  ⟨by norm_num, derivePercent_guarded 50 200 (by norm_num)⟩

/-- C7: the three summary tallies and the chart's row sequence are
computed from the full table and coincide with the no-filter render for
every selection; the selection restricts only the detail-table rows and
the export rows, every surviving row carrying the selected state. -/
theorem filter_scope (df : List CanonicalRow) (sel : String) :
    (render df sel).aadhaarTally = (render df "All").aadhaarTally
    ∧ (render df sel).cadreTally = (render df "All").cadreTally
    ∧ (render df sel).erollTally = (render df "All").erollTally
    ∧ (render df sel).barRows = (render df "All").barRows
    ∧ (render df sel).tableRows = sortByState (dfFiltered df sel)
    ∧ (render df sel).exportRows = (dfFiltered df sel).map exportRecord
    ∧ ((dfFiltered df sel).all (fun r => sel == "All" || r.state == sel)) = true := by
  refine ⟨rfl, rfl, rfl, rfl, rfl, rfl, ?_⟩
  by_cases hs : sel = "All"
  · subst hs
    simp [dfFiltered]
  · rw [List.all_eq_true]
    intro r hr
    unfold dfFiltered at hr
    rw [if_neg hs] at hr
    have hmem := (List.mem_filter.mp hr).2
    simp [hmem]

/-- C8 counterexample: the export column set tracks the Overall Mobile
metric (its count column is present) but contains no Overall Mobile
status column — the source never derives one. -/
theorem mobile_status_missing_counterexample :
    (exportColumns.contains "Overall Mobile Count") = true
    ∧ (exportColumns.contains "Overall Mobile Status") = false := by
  decide

/-- C8 amended: for the three metrics Aadhaar, Cadre and Eroll/Voter,
every derived status is one of the three category strings, and the export
field set carries a status column for each of these three metrics (but
none for Overall Mobile). -/
theorem status_enum_and_export (raw : Option String) (count : Nat) (r : RawRow) :
    clean raw count ∈ ["Uploaded", "Pending upload", "No Data"]
    ∧ (cleanRow r).adharStatus ∈ ["Uploaded", "Pending upload", "No Data"]
    ∧ (cleanRow r).cadreStatus ∈ ["Uploaded", "Pending upload", "No Data"]
    ∧ (cleanRow r).erollStatus ∈ ["Uploaded", "Pending upload", "No Data"]
    ∧ "Aadhaar Status" ∈ exportColumns
    ∧ "Cadre Status" ∈ exportColumns
    ∧ "Eroll Status" ∈ exportColumns := by
  have base : ∀ (a : Option String) (n : Nat),
      clean a n ∈ ["Uploaded", "Pending upload", "No Data"] := by
    intro a n
    rcases clean_cases a n with h | h | h <;> simp [h]
  exact ⟨base _ _, base _ _, base _ _, base _ _, by decide, by decide, by decide⟩

/-- C10: over every pipeline output, each metric's tally partitions the
rows exhaustively and disjointly into the three status buckets — the three
bucket counts sum to the row count. -/
theorem tally_partitions_rows (raws : List RawRow) :
    ((tally (runPipeline raws) (fun r => r.adharStatus)).uploaded
      + (tally (runPipeline raws) (fun r => r.adharStatus)).pending
      + (tally (runPipeline raws) (fun r => r.adharStatus)).noData
      = (runPipeline raws).length)
    ∧ ((tally (runPipeline raws) (fun r => r.cadreStatus)).uploaded
      + (tally (runPipeline raws) (fun r => r.cadreStatus)).pending
      + (tally (runPipeline raws) (fun r => r.cadreStatus)).noData
      = (runPipeline raws).length)
    ∧ ((tally (runPipeline raws) (fun r => r.erollStatus)).uploaded
      + (tally (runPipeline raws) (fun r => r.erollStatus)).pending
      + (tally (runPipeline raws) (fun r => r.erollStatus)).noData
      = (runPipeline raws).length) := by
  refine ⟨?_, ?_, ?_⟩ <;>
    · apply tally_partition
      intro r hr
      rcases List.mem_map.mp hr with ⟨a, -, rfl⟩
      exact clean_cases _ _

end Dashboard
